import Mathlib

/-!
Shallow embedding of the Apollo blockchain address-labeling pipeline
(`src/src/labelers/*.py`, `src/src/labeling_pipeline.py`, `src/main.py`,
`src/example_usage.py`, `src/config.py`).

Modelling conventions:
* Python floats are embedded as `ℚ` (all confidence formulas are exact
  decimal arithmetic; no float-rounding behaviour is claimed).
* Timestamps and dates are embedded as `ℤ` day numbers; the Python
  expression `(datetime.now() - d).days` is embedded as integer
  subtraction `now - d` at day granularity.
* A fetched table (`pd.DataFrame` returned by the data source) is a
  `List` of row structures carrying the columns the corresponding SQL
  query selects.  A fallible fetch is an `Except String` value; Python's
  `try`/`except` wrappers become a `match` on that value.
* The data-fetch methods `get_ethereum_balances`, `get_nft_traders`,
  `get_dex_users`, `get_new_wallets` called by `LabelingPipeline` do not
  exist in the repository (`BigQueryClient` only offers generic query
  execution); the fetch is therefore left abstract, as a parameter.
-/

namespace Apollo

/-- Embeds `config.py` `Settings`: the three per-rule numeric settings
(defaults 1000.0, 0.7, 30). -/
structure Settings where
  min_eth_balance_whale : ℚ
  nft_trader_threshold : ℚ
  lookback_days_new_wallet : ℤ
deriving DecidableEq, Repr

/-- Embeds `src/src/models.py` `AddressLabel` (pydantic model). -/
structure AddressLabel where
  address : String
  label : String
  confidence : ℚ
  created_at : ℤ
  updated_at : ℤ
  source_rule : String
deriving DecidableEq, Repr, Inhabited

/-- A row of the whale query result (`whale.py` `_get_ethereum_balances`):
columns `address, eth_balance, created_at, updated_at`. -/
structure WhaleRow where
  address : String
  eth_balance : ℚ
  created_at : ℤ
  updated_at : ℤ
deriving DecidableEq, Repr

/-- A row of the NFT-trader query result (`nft_trader.py` `_get_nft_traders`):
columns `address, nft_ratio, total_interactions, nft_interactions,
created_at, updated_at`. -/
structure NftRow where
  address : String
  nft_ratio : ℚ
  total_interactions : ℚ
  nft_interactions : ℚ
  created_at : ℤ
  updated_at : ℤ
deriving DecidableEq, Repr

/-- A row of the DEX-user query result (`dex_user.py` `_get_dex_users`):
columns `address, unique_dex_contracts, total_dex_interactions,
created_at, updated_at`. -/
structure DexRow where
  address : String
  unique_dex_contracts : ℚ
  total_dex_interactions : ℚ
  created_at : ℤ
  updated_at : ℤ
deriving DecidableEq, Repr

/-- A row of the new-wallet query result (`new_wallet.py` `_get_new_wallets`):
columns `address, first_transaction_date, created_at, updated_at`. -/
structure NewWalletRow where
  address : String
  first_transaction_date : ℤ
  created_at : ℤ
  updated_at : ℤ
deriving DecidableEq, Repr

/-- A row of the table consumed by the pipeline's inline new-wallet
generator (`labeling_pipeline.py` `generate_new_wallet_labels`): its time
column is named `first_transaction_time`. -/
structure NewWalletRowP where
  address : String
  first_transaction_time : ℤ
  created_at : ℤ
  updated_at : ℤ
deriving DecidableEq, Repr

/-- Embeds `WhaleLabeler.generate_labels` (`whale.py` lines 38-57): for
each fetched row, `confidence = min(1.0, eth_balance / (min_balance * 10))`. -/
def WhaleLabeler.generate_labels (min_balance : ℚ) (df : List WhaleRow) :
    List AddressLabel :=
  df.map (fun row =>
    { address := row.address
      label := "whale"
      confidence := min 1 (row.eth_balance / (min_balance * 10))
      created_at := row.created_at
      updated_at := row.updated_at
      source_rule := "eth_balance >= " ++ toString min_balance })

/-- Embeds `NFTTraderLabeler.generate_labels` (`nft_trader.py` lines 66-103):
`confidence = max(0.4, min(1.0, nft_ratio + min(0.2, total_interactions / 100.0)))`. -/
def NFTTraderLabeler.generate_labels (threshold : ℚ) (df : List NftRow) :
    List AddressLabel :=
  df.map (fun row =>
    { address := row.address
      label := "nft_trader"
      confidence :=
        max 0.4 (min 1 (row.nft_ratio + min 0.2 (row.total_interactions / 100)))
      created_at := row.created_at
      updated_at := row.updated_at
      source_rule := "nft_ratio >= " ++ toString threshold })

/-- Embeds `DEXUserLabeler.generate_labels` (`dex_user.py` lines 61-95):
`confidence = max(0.25, (min(1, unique/5) + min(1, total/50)) / 2)`. -/
def DEXUserLabeler.generate_labels (min_interactions : ℤ) (df : List DexRow) :
    List AddressLabel :=
  df.map (fun row =>
    { address := row.address
      label := "dex_user"
      confidence :=
        max 0.25 ((min 1 (row.unique_dex_contracts / 5)
          + min 1 (row.total_dex_interactions / 50)) / 2)
      created_at := row.created_at
      updated_at := row.updated_at
      source_rule := "dex_interactions >= " ++ toString min_interactions })

/-- Embeds `NewWalletLabeler.generate_labels` (`new_wallet.py` lines 64-94):
`days_old = (datetime.now() - first_transaction_date).days`,
`confidence = max(0.1, 1.0 - days_old / lookback_days)`.  `now` is the
value of `datetime.now()` at generation time, in days. -/
def NewWalletLabeler.generate_labels (lookback_days : ℤ) (now : ℤ)
    (df : List NewWalletRow) : List AddressLabel :=
  df.map (fun row =>
    { address := row.address
      label := "new_wallet"
      confidence :=
        max 0.1 (1 - ((now - row.first_transaction_date : ℤ) : ℚ)
          / (lookback_days : ℚ))
      created_at := row.created_at
      updated_at := row.updated_at
      source_rule :=
        "first_transaction_within_" ++ toString lookback_days ++ "_days" })

/-- Embeds `BaseLabeler.run` (`base_labeler.py` lines 48-61): the result of
`generate_labels()` — which may have failed — is returned unchanged on
success, and replaced by the empty list when an exception was raised. -/
def BaseLabeler.run (gen : Except String (List AddressLabel)) :
    List AddressLabel :=
  match gen with
  | .ok labels => labels
  | .error _ => []

/-- Embeds `LabelingPipeline.generate_whale_labels`
(`labeling_pipeline.py` lines 25-54): fetch wrapped in `try`/`except`,
`confidence = min(1.0, eth_balance / (settings.min_eth_balance_whale * 10))`. -/
def LabelingPipeline.generate_whale_labels (s : Settings)
    (fetch : Except String (List WhaleRow)) : List AddressLabel :=
  match fetch with
  | .error _ => []
  | .ok df =>
    df.map (fun row =>
      { address := row.address
        label := "whale"
        confidence := min 1 (row.eth_balance / (s.min_eth_balance_whale * 10))
        created_at := row.created_at
        updated_at := row.updated_at
        source_rule := "eth_balance >= " ++ toString s.min_eth_balance_whale })

/-- Embeds `LabelingPipeline.generate_nft_trader_labels`
(`labeling_pipeline.py` lines 56-86):
`confidence = min(1.0, nft_ratio + min(0.2, total_interactions / 1000))`
— note the `1000` divisor and the absence of a `0.4` floor. -/
def LabelingPipeline.generate_nft_trader_labels (s : Settings)
    (fetch : Except String (List NftRow)) : List AddressLabel :=
  match fetch with
  | .error _ => []
  | .ok df =>
    df.map (fun row =>
      { address := row.address
        label := "nft_trader"
        confidence := min 1 (row.nft_ratio + min 0.2 (row.total_interactions / 1000))
        created_at := row.created_at
        updated_at := row.updated_at
        source_rule :=
          "nft_interaction_ratio >= " ++ toString s.nft_trader_threshold })

/-- Embeds `LabelingPipeline.generate_dex_user_labels`
(`labeling_pipeline.py` lines 88-121):
`confidence = min(1.0, min(0.6, unique/5) + min(0.4, total/100))`
— note the asymmetric caps and the absence of a `0.25` floor. -/
def LabelingPipeline.generate_dex_user_labels (_s : Settings)
    (fetch : Except String (List DexRow)) : List AddressLabel :=
  match fetch with
  | .error _ => []
  | .ok df =>
    df.map (fun row =>
      { address := row.address
        label := "dex_user"
        confidence :=
          min 1 (min 0.6 (row.unique_dex_contracts / 5)
            + min 0.4 (row.total_dex_interactions / 100))
        created_at := row.created_at
        updated_at := row.updated_at
        source_rule := "interacted_with_known_dex_contracts" })

/-- Embeds `LabelingPipeline.generate_new_wallet_labels`
(`labeling_pipeline.py` lines 123-154):
`days_old = (datetime.now() - first_transaction_time).days`,
`confidence = max(0.1, 1.0 - days_old / settings.lookback_days_new_wallet)`. -/
def LabelingPipeline.generate_new_wallet_labels (s : Settings) (now : ℤ)
    (fetch : Except String (List NewWalletRowP)) : List AddressLabel :=
  match fetch with
  | .error _ => []
  | .ok df =>
    df.map (fun row =>
      { address := row.address
        label := "new_wallet"
        confidence :=
          max 0.1 (1 - ((now - row.first_transaction_time : ℤ) : ℚ)
            / ((s.lookback_days_new_wallet : ℤ) : ℚ))
        created_at := row.created_at
        updated_at := row.updated_at
        source_rule := "first_transaction_within_"
          ++ toString s.lookback_days_new_wallet ++ "_days" })

/-- The four (abstract) fetch results a full pipeline run consumes. -/
structure FetchResults where
  whales : Except String (List WhaleRow)
  nfts : Except String (List NftRow)
  dexes : Except String (List DexRow)
  new_wallets : Except String (List NewWalletRowP)

/-- Embeds `LabelingPipeline.run_full_pipeline`
(`labeling_pipeline.py` lines 156-173): concatenates the four inline
generators' output (each one absorbing its own fetch failure); the result
is both returned and stored as the retained set `self.labels`. -/
def LabelingPipeline.run_full_pipeline (s : Settings) (now : ℤ)
    (f : FetchResults) : List AddressLabel :=
  LabelingPipeline.generate_whale_labels s f.whales
    ++ LabelingPipeline.generate_nft_trader_labels s f.nfts
    ++ LabelingPipeline.generate_dex_user_labels s f.dexes
    ++ LabelingPipeline.generate_new_wallet_labels s now f.new_wallets

/-- A cell of an exported table: the row dicts built by
`export_to_dataframe` hold strings, floats and timestamps. -/
inductive Cell where
  | str : String → Cell
  | num : ℚ → Cell
  | time : ℤ → Cell
deriving DecidableEq, Repr

/-- A `pandas` `DataFrame` abstracted to what the export surface uses:
an ordered list of column names and a list of rows. -/
structure DataFrame where
  columns : List String
  rows : List (List Cell)
deriving DecidableEq, Repr

/-- Embeds `LabelingPipeline.export_to_dataframe`
(`labeling_pipeline.py` lines 183-199): on an empty retained set it
returns `pd.DataFrame()` — a frame with no columns and no rows —
otherwise one row dict per label with keys
`address, label, confidence, created_at, updated_at, source_rule`
(which become the frame's columns, in that order). -/
def LabelingPipeline.export_to_dataframe (labels : List AddressLabel) :
    DataFrame :=
  if labels.isEmpty then ⟨[], []⟩
  else
    ⟨["address", "label", "confidence", "created_at", "updated_at",
        "source_rule"],
      labels.map (fun l =>
        [Cell.str l.address, Cell.str l.label, Cell.num l.confidence,
          Cell.time l.created_at, Cell.time l.updated_at,
          Cell.str l.source_rule])⟩

/-- One step of the grouping loop in `example_usage.py`
`example_multi_label_addresses` (lines 47-51): append the label's
category to the entry for its address, creating the entry if absent
(Python dict semantics, insertion-ordered). -/
def addLabelToGroups (acc : List (String × List String))
    (l : AddressLabel) : List (String × List String) :=
  if acc.any (fun p => p.1 == l.address) then
    acc.map (fun p => if p.1 == l.address then (p.1, p.2 ++ [l.label]) else p)
  else
    acc ++ [(l.address, [l.label])]

/-- The `address_labels` dict of `example_multi_label_addresses` after the
grouping loop over all labels. -/
def groupByAddress (labels : List AddressLabel) :
    List (String × List String) :=
  labels.foldl addLabelToGroups []

/-- Embeds the `multi_label_addresses` comprehension of
`example_usage.py` (lines 53-56): keep the addresses whose label list has
more than one distinct element (`len(set(labels)) > 1`), each still mapped
to its full label list. -/
def multi_label_addresses (labels : List AddressLabel) :
    List (String × List String) :=
  (groupByAddress labels).filter (fun p => 1 < p.2.dedup.length)

/-- Embeds the multi-label selection of `main.py`
`generate_summary_report` (lines 55-56):
`address_label_counts = labels_df['address'].value_counts()` followed by
`address_label_counts[address_label_counts > 1]` — the distinct addresses
with more than one record, distinct categories never considered. -/
def main_multi_label_addresses (labels : List AddressLabel) : List String :=
  ((labels.map (fun l => l.address)).dedup).filter
    (fun a => 1 < (labels.map (fun l => l.address)).count a)

/-- The categories of one address's records, in record order
(specification helper used to state what the grouping loop computes). -/
def catsOf (labels : List AddressLabel) (addr : String) : List String :=
  (labels.filter (fun l => l.address == addr)).map (fun l => l.label)

/-- Embeds `WhaleLabeler.__init__` (`whale.py` lines 13-16):
`self.min_balance = min_balance or settings.min_eth_balance_whale` with
default argument `None`.  Python's `or` takes the right operand when the
left is falsy, i.e. `None` or `0.0`. -/
def WhaleLabeler.init_min_balance (min_balance : Option ℚ) (s : Settings) :
    ℚ :=
  match min_balance with
  | none => s.min_eth_balance_whale
  | some v => if v = 0 then s.min_eth_balance_whale else v

/-- Embeds `NFTTraderLabeler.__init__` (`nft_trader.py` lines 17-28):
`self.threshold = threshold or settings.nft_trader_threshold`. -/
def NFTTraderLabeler.init_threshold (threshold : Option ℚ) (s : Settings) :
    ℚ :=
  match threshold with
  | none => s.nft_trader_threshold
  | some v => if v = 0 then s.nft_trader_threshold else v

/-- Embeds `NewWalletLabeler.__init__` (`new_wallet.py` lines 18-27):
`self.lookback_days = lookback_days or settings.lookback_days_new_wallet`. -/
def NewWalletLabeler.init_lookback_days (lookback_days : Option ℤ)
    (s : Settings) : ℤ :=
  match lookback_days with
  | none => s.lookback_days_new_wallet
  | some v => if v = 0 then s.lookback_days_new_wallet else v

/-- The run-to-run comparable content of a label record: everything but
the two timestamps (`address, category, confidence, source_rule`). -/
def labelContent (l : AddressLabel) : String × String × ℚ × String :=
  (l.address, l.label, l.confidence, l.source_rule)

theorem fst_groupUpdate (acc : List (String × List String))
    (l : AddressLabel) :
    (acc.map (fun p =>
        if p.1 == l.address then (p.1, p.2 ++ [l.label]) else p)).map
        Prod.fst = acc.map Prod.fst := by
  rw [List.map_map]
  refine List.map_congr_left ?_
  intro p _
  by_cases h : p.1 = l.address <;> simp [Function.comp, h]

theorem find?_addLabelToGroups (acc : List (String × List String))
    (l : AddressLabel) (a : String) :
    (addLabelToGroups acc l).find? (fun p => p.1 == a) =
      if a = l.address then
        match acc.find? (fun p => p.1 == a) with
        | some kcs => some (kcs.1, kcs.2 ++ [l.label])
        | none => some (l.address, [l.label])
      else acc.find? (fun p => p.1 == a) := by
  unfold addLabelToGroups
  by_cases hmem : acc.any (fun p => p.1 == l.address) = true
  · rw [if_pos hmem, List.find?_map]
    have hcomp : ((fun p : String × List String => p.1 == a) ∘
        fun p => if p.1 == l.address then (p.1, p.2 ++ [l.label]) else p)
        = fun p => p.1 == a := by
      funext p
      by_cases h : p.1 = l.address <;> simp [Function.comp, h]
    rw [hcomp]
    rcases hfind : acc.find? (fun p => p.1 == a) with _ | kcs
    · rw [hfind]
      by_cases ha : a = l.address
      · rw [if_pos ha]
        exfalso
        rw [List.find?_eq_none] at hfind
        rw [List.any_eq_true] at hmem
        obtain ⟨x, hx, hpx⟩ := hmem
        have hxa : (x.1 == a) = true := by rw [ha]; exact hpx
        exact absurd hxa (by simpa using hfind x hx)
      · rw [if_neg ha]
        rfl
    · rw [hfind]
      have hk : kcs.1 = a := by simpa using List.find?_some hfind
      by_cases ha : a = l.address
      · rw [if_pos ha]
        simp [hk, ha]
      · rw [if_neg ha]
        simp [hk, ha]
  · rw [if_neg hmem, List.find?_append]
    by_cases ha : a = l.address
    · rw [if_pos ha]
      have hsing : ([(l.address, [l.label])] :
          List (String × List String)).find? (fun p => p.1 == a)
            = some (l.address, [l.label]) := by
        refine List.find?_cons_of_pos _ ?_
        rw [ha]
        simp
      rw [hsing]
      rcases hfind : acc.find? (fun p => p.1 == a) with _ | kcs
      · rw [hfind]
        rfl
      · rw [hfind]
        exfalso
        have hk : kcs.1 = a := by simpa using List.find?_some hfind
        have hin : kcs ∈ acc := List.mem_of_find?_eq_some hfind
        apply hmem
        refine List.any_eq_true.mpr ⟨kcs, hin, ?_⟩
        rw [hk, ha]
        simp
    · rw [if_neg ha]
      have hsing : ([(l.address, [l.label])] :
          List (String × List String)).find? (fun p => p.1 == a) = none := by
        have hne : (l.address == a) = false :=
          beq_eq_false_iff_ne.mpr (fun hcon => ha hcon.symm)
        rw [List.find?_cons_of_neg _ (by simp [hne])]
        rfl
      rw [hsing]
      rcases hfind : acc.find? (fun p => p.1 == a) with _ | kcs <;>
        rw [hfind] <;> rfl

theorem find?_groupLoop (labels : List AddressLabel)
    (acc : List (String × List String)) (a : String) :
    (labels.foldl addLabelToGroups acc).find? (fun p => p.1 == a) =
      match acc.find? (fun p => p.1 == a) with
      | some kcs => some (kcs.1, kcs.2 ++ catsOf labels a)
      | none => if catsOf labels a = [] then none
                else some (a, catsOf labels a) := by
  induction labels generalizing acc with
  | nil =>
    rcases hfind : acc.find? (fun p => p.1 == a) with _ | kcs <;>
      simp [catsOf, hfind]
  | cons l ls ih =>
    rw [List.foldl_cons, ih, find?_addLabelToGroups]
    by_cases ha : a = l.address
    · rw [if_pos ha]
      have hcond : (l.address == a) = true := by rw [ha]; simp
      rcases hfind : acc.find? (fun p => p.1 == a) with _ | kcs <;>
        rw [hfind] <;> simp [catsOf, List.filter_cons, hcond, ha]
    · rw [if_neg ha]
      have hcond : (l.address == a) = false :=
        beq_eq_false_iff_ne.mpr (fun hcon => ha hcon.symm)
      rcases hfind : acc.find? (fun p => p.1 == a) with _ | kcs <;>
        rw [hfind] <;> simp [catsOf, List.filter_cons, hcond]

theorem nodup_fst_groupLoop (labels : List AddressLabel)
    (acc : List (String × List String))
    (h : (acc.map Prod.fst).Nodup) :
    ((labels.foldl addLabelToGroups acc).map Prod.fst).Nodup := by
  induction labels generalizing acc with
  | nil => exact h
  | cons l ls ih =>
    rw [List.foldl_cons]
    refine ih _ ?_
    unfold addLabelToGroups
    by_cases hmem : acc.any (fun p => p.1 == l.address) = true
    · rw [if_pos hmem, fst_groupUpdate]
      exact h
    · rw [if_neg hmem, List.map_append]
      rw [List.nodup_append]
      refine ⟨h, by simp, ?_⟩
      simp only [List.map_cons, List.map_nil]
      rw [List.disjoint_singleton]
      intro hcon
      rw [List.mem_map] at hcon
      obtain ⟨p, hp, hpa⟩ := hcon
      exact hmem (List.any_eq_true.mpr ⟨p, hp, by simp [hpa]⟩)

theorem mem_iff_find?_of_nodup_fst (xs : List (String × List String))
    (h : (xs.map Prod.fst).Nodup) (k : String) (v : List String) :
    (k, v) ∈ xs ↔ xs.find? (fun p => p.1 == k) = some (k, v) := by
  induction xs with
  | nil => simp
  | cons x xs ih =>
    simp only [List.map_cons, List.nodup_cons] at h
    obtain ⟨hx, hxs⟩ := h
    by_cases hk : x.1 = k
    · rw [List.find?_cons_of_pos _ (by simp [hk])]
      constructor
      · intro hmem
        rcases List.mem_cons.mp hmem with heq | hmem'
        · rw [← heq]
        · exact absurd (hk ▸ List.mem_map_of_mem Prod.fst hmem') hx
      · intro hsome
        rw [Option.some.inj hsome]
        exact List.mem_cons_self _ _
    · rw [List.find?_cons_of_neg _ (by simp [hk])]
      rw [List.mem_cons, ih hxs]
      constructor
      · rintro (heq | h')
        · exact absurd (by rw [← heq]) hk
        · exact h'
      · exact Or.inr

theorem mem_groupByAddress (labels : List AddressLabel) (addr : String)
    (cats : List String) :
    (addr, cats) ∈ groupByAddress labels ↔
      (catsOf labels addr ≠ [] ∧ cats = catsOf labels addr) := by
  have hnodup : ((groupByAddress labels).map Prod.fst).Nodup :=
    nodup_fst_groupLoop labels [] (by simp)
  rw [mem_iff_find?_of_nodup_fst _ hnodup]
  unfold groupByAddress
  rw [find?_groupLoop]
  simp only [List.find?_nil]
  by_cases hc : catsOf labels addr = []
  · simp [hc]
  · simp only [hc, if_false, Option.some.injEq, Prod.mk.injEq, true_and,
      ne_eq, not_false_iff]
    tauto

theorem count_map_address (labels : List AddressLabel) (addr : String) :
    (labels.map (fun l => l.address)).count addr
      = (labels.filter (fun l => l.address == addr)).length := by
  simp only [List.count, List.countP_map]
  rw [List.countP_eq_length_filter]
  rfl

/-- C2: a rule's `run()` never propagates an exception: a failing
`generate_labels()` yields the empty list, a succeeding one yields exactly
its records; and a full pipeline run with one failing fetch (here the DEX
rule) still returns the other rules' records, the failing rule
contributing zero records. -/
theorem c2_rule_failure_is_isolated :
    (∀ e : String, BaseLabeler.run (Except.error e) = []) ∧
    (∀ labels : List AddressLabel, BaseLabeler.run (Except.ok labels) = labels) ∧
    (∀ (s : Settings) (now : ℤ) (w : Except String (List WhaleRow))
        (n : Except String (List NftRow)) (e : String)
        (nw : Except String (List NewWalletRowP)),
      LabelingPipeline.run_full_pipeline s now ⟨w, n, Except.error e, nw⟩ =
        LabelingPipeline.generate_whale_labels s w
          ++ LabelingPipeline.generate_nft_trader_labels s n
          ++ ([] : List AddressLabel)
          ++ LabelingPipeline.generate_new_wallet_labels s now nw) :=
  ⟨fun _ => rfl, fun _ => rfl, fun _ _ _ _ _ _ => rfl⟩

/-- C6: the whale label's confidence is `min(1, balance / (minimum * 10))`
in both generation paths; balance equal to the minimum yields `0.1`,
balance equal to `10×` the minimum yields `1.0`, and any larger balance
still clamps to `1.0`. -/
theorem c6_whale_confidence_formula (m : ℚ) (s : Settings) (hm : 0 < m) :
    (∀ rows, (WhaleLabeler.generate_labels m rows).map (fun l => l.confidence)
        = rows.map (fun r => min 1 (r.eth_balance / (m * 10)))) ∧
    (∀ rows, (LabelingPipeline.generate_whale_labels s (Except.ok rows)).map
          (fun l => l.confidence)
        = rows.map (fun r =>
            min 1 (r.eth_balance / (s.min_eth_balance_whale * 10)))) ∧
    (∀ r : WhaleRow, r.eth_balance = m →
        (WhaleLabeler.generate_labels m [r]).map (fun l => l.confidence)
          = [1/10]) ∧
    (∀ r : WhaleRow, r.eth_balance = 10 * m →
        (WhaleLabeler.generate_labels m [r]).map (fun l => l.confidence)
          = [1]) ∧
    (∀ r : WhaleRow, 10 * m ≤ r.eth_balance →
        (WhaleLabeler.generate_labels m [r]).map (fun l => l.confidence)
          = [1]) := by
  have hm' : m ≠ 0 := hm.ne'
  refine ⟨fun rows => ?_, fun rows => ?_, fun r hr => ?_, fun r hr => ?_,
    fun r hr => ?_⟩
  · simp [WhaleLabeler.generate_labels, List.map_map]
  · simp [LabelingPipeline.generate_whale_labels, List.map_map]
  · simp only [WhaleLabeler.generate_labels, List.map_cons, List.map_nil, hr]
    have h10 : m / (m * 10) = 1 / 10 := by
      field_simp
    rw [h10]
    norm_num
  · simp only [WhaleLabeler.generate_labels, List.map_cons, List.map_nil, hr]
    have h1 : 10 * m / (m * 10) = 1 := by
      field_simp; ring
    rw [h1]
    norm_num
  · simp only [WhaleLabeler.generate_labels, List.map_cons, List.map_nil]
    have hpos : (0 : ℚ) < m * 10 := by positivity
    have h1 : (1 : ℚ) ≤ r.eth_balance / (m * 10) := by
      rw [le_div_iff₀ hpos]
      linarith
    rw [min_eq_left h1]

/-- C6 witness: with minimum 1000, a fetched balance of exactly 1000
produces confidence `0.1`. -/
theorem c6_whale_confidence_formula_witness :
    (WhaleLabeler.generate_labels 1000 [⟨"0xa", 1000, 0, 0⟩]).map
        (fun l => l.confidence) = [1/10] :=
  (c6_whale_confidence_formula 1000 ⟨1000, 7/10, 30⟩ (by norm_num)).2.2.1
    ⟨"0xa", 1000, 0, 0⟩ rfl

/-- C7: the new-wallet label's confidence is
`max(0.1, 1 - days_old / lookback_days)` in both generation paths
(`days_old` being the generation-time age in days of the wallet's first
transaction); `days_old = 0` yields `1.0` and `days_old = lookback_days`
yields the floor `0.1`. -/
theorem c7_new_wallet_confidence_formula (L now : ℤ) (s : Settings)
    (hL : 0 < L) :
    (∀ rows, (NewWalletLabeler.generate_labels L now rows).map
          (fun l => l.confidence)
        = rows.map (fun r =>
            max 0.1 (1 - ((now - r.first_transaction_date : ℤ) : ℚ)
              / (L : ℚ)))) ∧
    (∀ rows, (LabelingPipeline.generate_new_wallet_labels s now
          (Except.ok rows)).map (fun l => l.confidence)
        = rows.map (fun r =>
            max 0.1 (1 - ((now - r.first_transaction_time : ℤ) : ℚ)
              / ((s.lookback_days_new_wallet : ℤ) : ℚ)))) ∧
    (∀ r : NewWalletRow, now - r.first_transaction_date = 0 →
        (NewWalletLabeler.generate_labels L now [r]).map
          (fun l => l.confidence) = [1]) ∧
    (∀ r : NewWalletRow, now - r.first_transaction_date = L →
        (NewWalletLabeler.generate_labels L now [r]).map
          (fun l => l.confidence) = [1/10]) := by
  refine ⟨fun rows => ?_, fun rows => ?_, fun r hr => ?_, fun r hr => ?_⟩
  · simp [NewWalletLabeler.generate_labels, List.map_map]
  · simp [LabelingPipeline.generate_new_wallet_labels, List.map_map]
  · simp only [NewWalletLabeler.generate_labels, List.map_cons, List.map_nil,
      hr]
    norm_num
  · simp only [NewWalletLabeler.generate_labels, List.map_cons, List.map_nil,
      hr]
    have hL' : ((L : ℤ) : ℚ) ≠ 0 := by
      exact_mod_cast hL.ne'
    rw [div_self hL']
    norm_num

/-- C7 witness: with a 30-day lookback, a wallet whose first transaction
is 30 days old gets the floor confidence `0.1`. -/
theorem c7_new_wallet_confidence_formula_witness :
    (NewWalletLabeler.generate_labels 30 30 [⟨"0xa", 0, 0, 0⟩]).map
        (fun l => l.confidence) = [1/10] :=
  (c7_new_wallet_confidence_formula 30 30 ⟨1000, 7/10, 30⟩
    (by norm_num)).2.2.2 ⟨"0xa", 0, 0, 0⟩ rfl

/-- C10: passing an explicit zero for `min_balance`, `threshold` or
`lookback_days` configures the labeler exactly as passing nothing: the
process-wide default setting is used, not the zero (Python's `or` treats
`0`/`0.0` as falsy). -/
theorem c10_zero_config_uses_default (s : Settings) :
    WhaleLabeler.init_min_balance (some 0) s
        = WhaleLabeler.init_min_balance none s ∧
    WhaleLabeler.init_min_balance (some 0) s = s.min_eth_balance_whale ∧
    NFTTraderLabeler.init_threshold (some 0) s
        = NFTTraderLabeler.init_threshold none s ∧
    NFTTraderLabeler.init_threshold (some 0) s = s.nft_trader_threshold ∧
    NewWalletLabeler.init_lookback_days (some 0) s
        = NewWalletLabeler.init_lookback_days none s ∧
    NewWalletLabeler.init_lookback_days (some 0) s
        = s.lookback_days_new_wallet := by
  refine ⟨?_, ?_, ?_, ?_, ?_, ?_⟩ <;>
    simp [WhaleLabeler.init_min_balance, NFTTraderLabeler.init_threshold,
      NewWalletLabeler.init_lookback_days]

/-- C1: every label produced by any of the eight generation paths from
fetched rows has `0 ≤ confidence ≤ 1`.  The row hypotheses are the
constraints the rules' SQL queries place on fetched rows (whale balances
meet the configured minimum; interaction counts are nonnegative; an NFT
ratio is nonnegative; a first-transaction date does not postdate
generation time), and the configured minimum/lookback are positive as
the defaults are. -/
theorem c1_confidence_in_unit_interval (s : Settings) (m threshold : ℚ)
    (mi L now : ℤ) (hm : 0 < m) (hL : 0 < L)
    (hsm : 0 < s.min_eth_balance_whale)
    (hsL : 0 < s.lookback_days_new_wallet) :
    (∀ rows, (∀ r ∈ rows, m ≤ r.eth_balance) →
      ∀ l ∈ WhaleLabeler.generate_labels m rows,
        0 ≤ l.confidence ∧ l.confidence ≤ 1) ∧
    (∀ rows, ∀ l ∈ DEXUserLabeler.generate_labels mi rows,
        0 ≤ l.confidence ∧ l.confidence ≤ 1) ∧
    (∀ rows, ∀ l ∈ NFTTraderLabeler.generate_labels threshold rows,
        0 ≤ l.confidence ∧ l.confidence ≤ 1) ∧
    (∀ rows, (∀ r ∈ rows, r.first_transaction_date ≤ now) →
      ∀ l ∈ NewWalletLabeler.generate_labels L now rows,
        0 ≤ l.confidence ∧ l.confidence ≤ 1) ∧
    (∀ rows, (∀ r ∈ rows, s.min_eth_balance_whale ≤ r.eth_balance) →
      ∀ l ∈ LabelingPipeline.generate_whale_labels s (Except.ok rows),
        0 ≤ l.confidence ∧ l.confidence ≤ 1) ∧
    (∀ rows, (∀ r ∈ rows, 0 ≤ r.nft_ratio ∧ 0 ≤ r.total_interactions) →
      ∀ l ∈ LabelingPipeline.generate_nft_trader_labels s (Except.ok rows),
        0 ≤ l.confidence ∧ l.confidence ≤ 1) ∧
    (∀ rows, (∀ r ∈ rows,
        0 ≤ r.unique_dex_contracts ∧ 0 ≤ r.total_dex_interactions) →
      ∀ l ∈ LabelingPipeline.generate_dex_user_labels s (Except.ok rows),
        0 ≤ l.confidence ∧ l.confidence ≤ 1) ∧
    (∀ rows, (∀ r ∈ rows, r.first_transaction_time ≤ now) →
      ∀ l ∈ LabelingPipeline.generate_new_wallet_labels s now
          (Except.ok rows),
        0 ≤ l.confidence ∧ l.confidence ≤ 1) := by
  refine ⟨fun rows hval l hl => ?_, fun rows l hl => ?_, fun rows l hl => ?_,
    fun rows hval l hl => ?_, fun rows hval l hl => ?_,
    fun rows hval l hl => ?_, fun rows hval l hl => ?_,
    fun rows hval l hl => ?_⟩
  · simp only [WhaleLabeler.generate_labels, List.mem_map] at hl
    obtain ⟨r, hr, rfl⟩ := hl
    have hb : m ≤ r.eth_balance := hval r hr
    refine ⟨le_min (by norm_num) (div_nonneg (by linarith) (by positivity)),
      min_le_left _ _⟩
  · simp only [DEXUserLabeler.generate_labels, List.mem_map] at hl
    obtain ⟨r, hr, rfl⟩ := hl
    constructor
    · exact le_trans (by norm_num) (le_max_left _ _)
    · refine max_le (by norm_num) ?_
      rw [div_le_one (by norm_num : (0:ℚ) < 2)]
      have h1 := min_le_left (1 : ℚ) (r.unique_dex_contracts / 5)
      have h2 := min_le_left (1 : ℚ) (r.total_dex_interactions / 50)
      linarith
  · simp only [NFTTraderLabeler.generate_labels, List.mem_map] at hl
    obtain ⟨r, hr, rfl⟩ := hl
    exact ⟨le_trans (by norm_num) (le_max_left _ _),
      max_le (by norm_num) (min_le_left _ _)⟩
  · simp only [NewWalletLabeler.generate_labels, List.mem_map] at hl
    obtain ⟨r, hr, rfl⟩ := hl
    have hd : (0 : ℚ) ≤ ((now - r.first_transaction_date : ℤ) : ℚ) := by
      exact_mod_cast sub_nonneg.mpr (hval r hr)
    have hLq : (0 : ℚ) ≤ ((L : ℤ) : ℚ) := by exact_mod_cast hL.le
    exact ⟨le_trans (by norm_num) (le_max_left _ _),
      max_le (by norm_num) (sub_le_self 1 (div_nonneg hd hLq))⟩
  · simp only [LabelingPipeline.generate_whale_labels, List.mem_map] at hl
    obtain ⟨r, hr, rfl⟩ := hl
    have hb := hval r hr
    refine ⟨le_min (by norm_num) (div_nonneg (by linarith) (by positivity)),
      min_le_left _ _⟩
  · simp only [LabelingPipeline.generate_nft_trader_labels,
      List.mem_map] at hl
    obtain ⟨r, hr, rfl⟩ := hl
    obtain ⟨hra, hti⟩ := hval r hr
    refine ⟨le_min (by norm_num) ?_, min_le_left _ _⟩
    exact add_nonneg hra (le_min (by norm_num) (div_nonneg hti (by norm_num)))
  · simp only [LabelingPipeline.generate_dex_user_labels,
      List.mem_map] at hl
    obtain ⟨r, hr, rfl⟩ := hl
    obtain ⟨hu, ht⟩ := hval r hr
    refine ⟨le_min (by norm_num) ?_, min_le_left _ _⟩
    exact add_nonneg (le_min (by norm_num) (div_nonneg hu (by norm_num)))
      (le_min (by norm_num) (div_nonneg ht (by norm_num)))
  · simp only [LabelingPipeline.generate_new_wallet_labels,
      List.mem_map] at hl
    obtain ⟨r, hr, rfl⟩ := hl
    have hd : (0 : ℚ) ≤ ((now - r.first_transaction_time : ℤ) : ℚ) := by
      exact_mod_cast sub_nonneg.mpr (hval r hr)
    have hLq : (0 : ℚ) ≤ ((s.lookback_days_new_wallet : ℤ) : ℚ) := by
      exact_mod_cast hsL.le
    exact ⟨le_trans (by norm_num) (le_max_left _ _),
      max_le (by norm_num) (sub_le_self 1 (div_nonneg hd hLq))⟩

/-- C1 witness: the whale label generated for a fetched balance of 1500
at minimum 1000 has its confidence in `[0, 1]`. -/
theorem c1_confidence_in_unit_interval_witness :
    0 ≤ (WhaleLabeler.generate_labels 1000
          [⟨"0xa", 1500, 0, 0⟩]).headI.confidence ∧
    (WhaleLabeler.generate_labels 1000
          [⟨"0xa", 1500, 0, 0⟩]).headI.confidence ≤ 1 := by
  refine (c1_confidence_in_unit_interval ⟨1000, 7/10, 30⟩ 1000 (7/10) 5 30 0
    (by norm_num) (by norm_num) (by norm_num) (by norm_num)).1
    [⟨"0xa", 1500, 0, 0⟩] ?_ _ ?_
  · intro r hr
    simp only [List.mem_singleton] at hr
    subst hr
    norm_num
  · simp [WhaleLabeler.generate_labels, List.headI]

/-- C3 counterexample: on a fetched row with `nft_ratio = 0.7` and
`total_interactions = 100`, the pipeline's inline NFT generator produces
confidence `0.8` (it divides the interactions by 1000), not the `0.9` the
spec formula `max(0.4, min(1, ratio + min(0.2, interactions/100)))`
gives, so the claimed formula does not hold on both paths. -/
theorem c3_counterexample :
    (LabelingPipeline.generate_nft_trader_labels ⟨1000, 7/10, 30⟩
        (Except.ok [⟨"0xa", 7/10, 100, 70, 0, 0⟩])).map
        (fun l => l.confidence)
      ≠ [max 0.4 (min 1 (7/10 + min 0.2 ((100 : ℚ) / 100)))] := by
  norm_num [LabelingPipeline.generate_nft_trader_labels, min_def, max_def]

/-- C3 (amended): the `NFTTraderLabeler` class computes the spec formula
`max(0.4, min(1, nft_ratio + min(0.2, total_interactions/100)))`, while
the pipeline's inline generator computes
`min(1, nft_ratio + min(0.2, total_interactions/1000))` — a `1000`
divisor for the activity bonus and no `0.4` floor. -/
theorem c3_nft_confidence_amended (threshold : ℚ) (s : Settings) :
    (∀ rows, (NFTTraderLabeler.generate_labels threshold rows).map
          (fun l => l.confidence)
        = rows.map (fun r =>
            max 0.4 (min 1 (r.nft_ratio
              + min 0.2 (r.total_interactions / 100))))) ∧
    (∀ rows, (LabelingPipeline.generate_nft_trader_labels s
          (Except.ok rows)).map (fun l => l.confidence)
        = rows.map (fun r =>
            min 1 (r.nft_ratio + min 0.2 (r.total_interactions / 1000)))) :=
  ⟨fun rows => by simp [NFTTraderLabeler.generate_labels, List.map_map],
   fun rows => by
    simp [LabelingPipeline.generate_nft_trader_labels, List.map_map]⟩

/-- C4 counterexample: on a fetched row with 1 unique DEX contract and 10
interactions, the pipeline's inline DEX generator produces confidence
`0.3`, not the `0.25` the spec formula
`max(0.25, (min(1, unique/5) + min(1, total/50)) / 2)` gives, so the
claimed formula does not hold on both paths. -/
theorem c4_counterexample :
    (LabelingPipeline.generate_dex_user_labels ⟨1000, 7/10, 30⟩
        (Except.ok [⟨"0xa", 1, 10, 0, 0⟩])).map (fun l => l.confidence)
      ≠ [max 0.25 ((min 1 ((1 : ℚ) / 5) + min 1 ((10 : ℚ) / 50)) / 2)] := by
  norm_num [LabelingPipeline.generate_dex_user_labels, min_def, max_def]

/-- C4 (amended): the `DEXUserLabeler` class computes the spec formula
`max(0.25, (min(1, unique/5) + min(1, total/50)) / 2)`, while the
pipeline's inline generator computes
`min(1, min(0.6, unique/5) + min(0.4, total/100))` — asymmetric caps,
a `100` divisor for activity and no `0.25` floor. -/
theorem c4_dex_confidence_amended (mi : ℤ) (s : Settings) :
    (∀ rows, (DEXUserLabeler.generate_labels mi rows).map
          (fun l => l.confidence)
        = rows.map (fun r =>
            max 0.25 ((min 1 (r.unique_dex_contracts / 5)
              + min 1 (r.total_dex_interactions / 50)) / 2))) ∧
    (∀ rows, (LabelingPipeline.generate_dex_user_labels s
          (Except.ok rows)).map (fun l => l.confidence)
        = rows.map (fun r =>
            min 1 (min 0.6 (r.unique_dex_contracts / 5)
              + min 0.4 (r.total_dex_interactions / 100)))) :=
  ⟨fun rows => by simp [DEXUserLabeler.generate_labels, List.map_map],
   fun rows => by
    simp [LabelingPipeline.generate_dex_user_labels, List.map_map]⟩

/-- C8 counterexample: on the empty retained set `export_to_dataframe`
returns `pd.DataFrame()`, a frame with no columns at all, not the
six-column table the claim requires for every retained set. -/
theorem c8_counterexample :
    (LabelingPipeline.export_to_dataframe []).columns
      ≠ ["address", "label", "confidence", "created_at", "updated_at",
          "source_rule"] := by
  decide

/-- C8 (amended): for every nonempty retained set `export_to_dataframe`
returns exactly the columns
`address, label, confidence, created_at, updated_at, source_rule` in that
order with one row per record; on the empty retained set it returns a
frame with no columns and no rows. -/
theorem c8_export_amended :
    (∀ labels : List AddressLabel, labels ≠ [] →
      (LabelingPipeline.export_to_dataframe labels).columns
          = ["address", "label", "confidence", "created_at", "updated_at",
              "source_rule"] ∧
      (LabelingPipeline.export_to_dataframe labels).rows
          = labels.map (fun l =>
              [Cell.str l.address, Cell.str l.label, Cell.num l.confidence,
                Cell.time l.created_at, Cell.time l.updated_at,
                Cell.str l.source_rule])) ∧
    LabelingPipeline.export_to_dataframe [] = ⟨[], []⟩ := by
  constructor
  · intro labels h
    have h' : labels.isEmpty = false := by
      simpa using h
    simp [LabelingPipeline.export_to_dataframe, h']
  · rfl

/-- C8 witness: a singleton retained set exports with the six contract
columns. -/
theorem c8_export_amended_witness :
    (LabelingPipeline.export_to_dataframe
        [⟨"0xa", "whale", 1, 0, 0, "eth_balance >= 1000"⟩]).columns
      = ["address", "label", "confidence", "created_at", "updated_at",
          "source_rule"] :=
  (c8_export_amended.1 [⟨"0xa", "whale", 1, 0, 0, "eth_balance >= 1000"⟩]
    (by simp)).1

/-- C9 counterexample: two full pipeline runs over identical upstream
data (one new-wallet row whose first transaction is at day 0) but at
local times 0 and 15 produce different record contents: the new-wallet
confidence is computed from `datetime.now()`, so it is `1` in the first
run and `1/2` in the second. -/
theorem c9_counterexample :
    (LabelingPipeline.run_full_pipeline ⟨1000, 7/10, 30⟩ 0
        ⟨Except.ok [], Except.ok [], Except.ok [],
          Except.ok [⟨"0xa", 0, 0, 0⟩]⟩).map labelContent
      ≠ (LabelingPipeline.run_full_pipeline ⟨1000, 7/10, 30⟩ 15
        ⟨Except.ok [], Except.ok [], Except.ok [],
          Except.ok [⟨"0xa", 0, 0, 0⟩]⟩).map labelContent := by
  norm_num [LabelingPipeline.run_full_pipeline,
    LabelingPipeline.generate_whale_labels,
    LabelingPipeline.generate_nft_trader_labels,
    LabelingPipeline.generate_dex_user_labels,
    LabelingPipeline.generate_new_wallet_labels, labelContent,
    min_def, max_def]

/-- C9 (amended): runs over identical upstream data have identical
whale, NFT-trader and DEX-user contents whatever the run times (shown
with no new-wallet rows), and the new-wallet contents agree whenever the
two runs compute the same `days_old` for every fetched row — in
particular whenever they run at the same local time; only the run-time
clock entering `days_old` breaks exact run-to-run idempotence. -/
theorem c9_pipeline_idempotent_amended :
    (∀ (s : Settings) (t₁ t₂ : ℤ) (w : Except String (List WhaleRow))
        (n : Except String (List NftRow)) (d : Except String (List DexRow)),
      (LabelingPipeline.run_full_pipeline s t₁
          ⟨w, n, d, Except.ok []⟩).map labelContent
        = (LabelingPipeline.run_full_pipeline s t₂
          ⟨w, n, d, Except.ok []⟩).map labelContent) ∧
    (∀ (s : Settings) (t₁ t₂ : ℤ) (rows : List NewWalletRowP),
      (∀ r ∈ rows, t₁ - r.first_transaction_time
          = t₂ - r.first_transaction_time) →
      (LabelingPipeline.generate_new_wallet_labels s t₁
          (Except.ok rows)).map labelContent
        = (LabelingPipeline.generate_new_wallet_labels s t₂
          (Except.ok rows)).map labelContent) := by
  constructor
  · intro s t₁ t₂ w n d
    simp [LabelingPipeline.run_full_pipeline,
      LabelingPipeline.generate_new_wallet_labels]
  · intro s t₁ t₂ rows h
    simp only [LabelingPipeline.generate_new_wallet_labels, List.map_map]
    refine List.map_congr_left ?_
    intro r hr
    simp only [Function.comp, labelContent]
    rw [h r hr]

/-- C9 witness: a new-wallet generation repeated at the same local time
(day 5) over the same fetched row yields the same contents. -/
theorem c9_pipeline_idempotent_amended_witness :
    (LabelingPipeline.generate_new_wallet_labels ⟨1000, 7/10, 30⟩ 5
        (Except.ok [⟨"0xa", 2, 0, 0⟩])).map labelContent
      = (LabelingPipeline.generate_new_wallet_labels ⟨1000, 7/10, 30⟩ 5
        (Except.ok [⟨"0xa", 2, 0, 0⟩])).map labelContent :=
  c9_pipeline_idempotent_amended.2 ⟨1000, 7/10, 30⟩ 5 5 [⟨"0xa", 2, 0, 0⟩]
    (fun _ _ => rfl)

/-- C5 counterexample: an address holding two whale records (a duplicate
run) has a single distinct category, yet the multi-label selection of
`main.py`'s summary report — which counts records per address — includes
it, so the claim fails on that query path. -/
theorem c5_counterexample :
    "0xa" ∈ main_multi_label_addresses
        [⟨"0xa", "whale", 1, 0, 0, "eth_balance >= 1000"⟩,
          ⟨"0xa", "whale", 9/10, 1, 1, "eth_balance >= 1000"⟩] ∧
    (([⟨"0xa", "whale", 1, 0, 0, "eth_balance >= 1000"⟩,
        ⟨"0xa", "whale", 9/10, 1, 1, "eth_balance >= 1000"⟩] :
        List AddressLabel).map (fun l => l.label)).dedup = ["whale"] := by
  constructor
  · decide
  · decide

/-- C5 (amended): the multi-label query of `example_usage.py` behaves as
claimed — it returns exactly the addresses whose records span more than
one distinct category, each mapped to its full (possibly duplicated)
category list in record order — but the summary report in `main.py`
instead selects every address with more than one record, so there an
address with two same-category records is counted, not excluded. -/
theorem c5_multi_category_amended :
    (∀ (labels : List AddressLabel) (addr : String) (cats : List String),
      (addr, cats) ∈ multi_label_addresses labels ↔
        (cats = catsOf labels addr ∧ 1 < cats.dedup.length)) ∧
    (∀ (labels : List AddressLabel) (addr : String),
      addr ∈ main_multi_label_addresses labels ↔
        1 < (labels.filter (fun l => l.address == addr)).length) := by
  constructor
  · intro labels addr cats
    unfold multi_label_addresses
    rw [List.mem_filter, mem_groupByAddress]
    constructor
    · rintro ⟨⟨_, rfl⟩, hlen⟩
      exact ⟨rfl, by simpa using hlen⟩
    · rintro ⟨rfl, hlen⟩
      refine ⟨⟨?_, rfl⟩, by simpa using hlen⟩
      intro hnil
      rw [hnil] at hlen
      simp at hlen
  · intro labels addr
    unfold main_multi_label_addresses
    rw [List.mem_filter, List.mem_dedup]
    constructor
    · rintro ⟨_, hcount⟩
      rw [count_map_address] at hcount
      simpa using hcount
    · intro hcount
      have hpos : 0 < (labels.filter (fun l => l.address == addr)).length :=
        lt_trans one_pos hcount
      obtain ⟨x, hxmem⟩ := List.exists_mem_of_length_pos hpos
      have hx := List.mem_filter.mp hxmem
      refine ⟨List.mem_map.mpr ⟨x, hx.1, by simpa using hx.2⟩, ?_⟩
      rw [count_map_address]
      simpa using hcount

end Apollo
